import Mathlib

/-!
Verification of the control-and-sink core of the `openag_brain` repository.

Two source modules are embedded:

* `software_modules/pid.py` — a discrete PID controller (`PID.__init__`,
  `PID.update`, and the `set_point_callback` that installs a set point).
* `software_modules/image_persistence.py` — an image sink
  (`ImagePersistence.__init__`, `ImagePersistence.on_image`) that
  rate-limits inbound frames and persists them to a document store as a
  data-point record plus a binary attachment.

Python floats are modelled as rationals `ℚ`; `None` becomes `Option.none`;
side effects on the document store are modelled by explicit state passing
(a `Store` value threaded through `on_image`) together with an effect
trace recording the order of the store writes.  External collaborators
(the PNG codec of the PIL library, the pub/sub bus) are parameters of the
embedding, not part of it.
-/

/-- State of one `PID` controller instance: the configuration fields
stored by `PID.__init__` (`pid.py` lines 29–41) plus the running state
(`set_point`, `last_error`, `integrator`).  Field order follows the
Python constructor signature. -/
structure PIDState where
  Kp : ℚ
  Ki : ℚ
  Kd : ℚ
  upper_limit : ℚ
  lower_limit : ℚ
  windup_limit : ℚ
  deadband_width : ℚ
  set_point : Option ℚ
  last_error : ℚ
  integrator : ℚ
  deriving DecidableEq

namespace PID

/-- `PID.__init__` (`pid.py` lines 29–41): stores the seven parameters
verbatim and initialises `set_point = None`, `last_error = 0`,
`integrator = 0`.  The Python constructor performs no validation of the
parameters. -/
def init (Kp Ki Kd upper_limit lower_limit windup_limit deadband_width : ℚ) :
    PIDState where
  Kp := Kp
  Ki := Ki
  Kd := Kd
  upper_limit := upper_limit
  lower_limit := lower_limit
  windup_limit := windup_limit
  deadband_width := deadband_width
  set_point := none
  last_error := 0
  integrator := 0

/-- `set_point_callback` (`pid.py` lines 105–106): `pid.set_point = item.data`. -/
def set_desired (s : PIDState) (v : ℚ) : PIDState :=
  { s with set_point := some v }

/-- `PID.update` (`pid.py` lines 43–62).  Python mutates `self` and
returns the command (or `None` before any set point); here the new state
is returned alongside the output. -/
def update (s : PIDState) (state : ℚ) : Option ℚ × PIDState :=
  match s.set_point with
  | none => (none, s)
  | some sp =>
    let error := sp - state
    let p_value := s.Kp * error
    let d_value := s.Kd * (error - s.last_error)
    let integrator := s.integrator + error
    let integrator := max (-s.windup_limit) (min s.windup_limit integrator)
    let i_value := s.Ki * integrator
    let res := p_value + i_value + d_value
    let res := min s.upper_limit (max s.lower_limit res)
    let out := if |res| < s.deadband_width then (0 : ℚ) else res
    (some out, { s with last_error := error, integrator := integrator })

/-- The raw control effort `p_value + i_value + d_value` computed by
`PID.update` (`pid.py` lines 49–56) when the set point is `sp` and the
measured value is `state`. -/
def rawOf (s : PIDState) (sp state : ℚ) : ℚ :=
  let error := sp - state
  s.Kp * error +
    s.Ki * (max (-s.windup_limit) (min s.windup_limit (s.integrator + error))) +
    s.Kd * (error - s.last_error)

/-- The clamped control effort of `PID.update` (`pid.py` line 57):
`min(upper_limit, max(lower_limit, res))`. -/
def clampedOf (s : PIDState) (sp state : ℚ) : ℚ :=
  min s.upper_limit (max s.lower_limit (rawOf s sp state))

end PID

/-- Run a sequence of `update` calls (the `state_callback` path of
`pid.py` lines 99–103), collecting the outputs in order. -/
def runUpdates (s : PIDState) : List ℚ → List (Option ℚ) × PIDState
  | [] => ([], s)
  | m :: ms =>
    let r := PID.update s m
    let rest := runUpdates r.2 ms
    (r.1 :: rest.1, rest.2)

/-- An inbound `sensor_msgs/Image` message: the fields of `item` read by
`ImagePersistence.on_image` (`image_persistence.py` lines 50–55). -/
structure ImageMsg where
  encoding : String
  width : ℕ
  height : ℕ
  data : List ℕ
  deriving DecidableEq

/-- An `EnvironmentalDataPoint` document as built by `on_image`
(`image_persistence.py` lines 56–62).  The Python dict key `variable`
is a Lean keyword, so the field is named `varName`. -/
structure DataPoint where
  environment : String
  varName : String
  is_desired : Bool
  value : Option ℚ
  timestamp : ℚ
  deriving DecidableEq

/-- The document store (CouchDB database) seen through the two write
operations `on_image` uses: `db.save` and the attachment `PUT`.  Records
are kept with the identifier `db.save` returned for them; attachments
are keyed by record identifier and revision. -/
structure Store where
  records : List (ℕ × DataPoint)
  attachments : List (ℕ × ℕ × List ℕ)
  deriving DecidableEq

/-- `db.save(point)` (`image_persistence.py` line 63): persists the
record and returns `(point_id, point_rev)`.  Document identifiers are
modelled as successive naturals and the first revision of a document as
`1`. -/
def Store.save (s : Store) (p : DataPoint) : ℕ × ℕ × Store :=
  (s.records.length, 1,
    { s with records := s.records ++ [(s.records.length, p)] })

/-- One store write performed by `on_image`, in program order. -/
inductive Effect where
  | saveRecord : DataPoint → Effect
  | putAttachment : ℕ → ℕ → List ℕ → Effect
  deriving DecidableEq

/-- The per-frame failure modes of `on_image`: the `ValueError` of
`image_persistence.py` line 52 and the `RuntimeError` of lines 74–77. -/
inductive SinkError where
  | unsupportedEncoding : SinkError
  | attachmentFailed : SinkError
  deriving DecidableEq

/-- State of one `ImagePersistence` instance: the fields stored by
`ImagePersistence.__init__` (`image_persistence.py` lines 33–39) that
`on_image` reads or writes.  The database handle and the subscription
are the explicit `Store` argument of `on_image` and the bus,
respectively. -/
structure SinkState where
  environment : String
  varName : String
  min_update_interval : ℚ
  last_update : ℚ
  deriving DecidableEq

namespace ImagePersistence

/-- `ImagePersistence.__init__` (`image_persistence.py` lines 33–39):
stores the configuration and sets `last_update = 0`. -/
def init (environment varName : String) (min_update_interval : ℚ) :
    SinkState where
  environment := environment
  varName := varName
  min_update_interval := min_update_interval
  last_update := 0

/-- `ImagePersistence.image_format_mapping.get(item.encoding, None)`
(`image_persistence.py` lines 28–31 and 50). -/
def imageFormatMapping (enc : String) : Option String :=
  if enc = "rgb8" then some "RGB"
  else if enc = "rgba8" then some "RGBA"
  else none

/-- `ImagePersistence.on_image` (`image_persistence.py` lines 41–77).

Explicit-state rendering of the Python callback: `curr_time` is the
`time.time()` of line 43, `save_time` the `time.time()` of line 61,
`encode` the external PIL pipeline (`Image.fromstring` + PNG `img.save`,
taking the pixel format, dimensions and raw bytes to the attachment
bytes), and `putOk` tells whether `requests.put` answered 201.  Returns
the new instance state, the new store, the trace of store writes in
program order, and the error raised, if any. -/
def on_image (st : SinkState) (store : Store) (curr_time save_time : ℚ)
    (item : ImageMsg) (encode : String → ℕ → ℕ → List ℕ → List ℕ)
    (putOk : Bool) : SinkState × Store × List Effect × Option SinkError :=
  if curr_time - st.last_update < st.min_update_interval then
    (st, store, [], none)
  else
    let st := { st with last_update := curr_time }
    match imageFormatMapping item.encoding with
    | none => (st, store, [], some SinkError.unsupportedEncoding)
    | some image_format =>
      let point : DataPoint :=
        { environment := st.environment
          varName := st.varName
          is_desired := false
          value := none
          timestamp := save_time }
      let saved := store.save point
      let point_id := saved.1
      let point_rev := saved.2.1
      let store := saved.2.2
      let bytes := encode image_format item.width item.height item.data
      if putOk then
        (st,
          { store with attachments := store.attachments ++ [(point_id, point_rev, bytes)] },
          [Effect.saveRecord point, Effect.putAttachment point_id point_rev bytes],
          none)
      else
        (st, store,
          [Effect.saveRecord point, Effect.putAttachment point_id point_rev bytes],
          some SinkError.attachmentFailed)

end ImagePersistence

/-- Feed a list of `(arrival time, frame)` pairs through `on_image`,
threading the instance state and the store; every attachment `PUT`
succeeds.  The arrival time also serves as the record timestamp, as both
come from `time.time()` during the same callback. -/
def runFrames (encode : String → ℕ → ℕ → List ℕ → List ℕ)
    (st : SinkState) (store : Store) :
    List (ℚ × ImageMsg) → SinkState × Store
  | [] => (st, store)
  | (t, f) :: rest =>
    let r := ImagePersistence.on_image st store t t f encode true
    runFrames encode r.1 r.2.1 rest

/-- Before any set point has been received, `update` returns early
(`pid.py` lines 44–45): no output, no state change. -/
theorem PID.update_none (s : PIDState) (m : ℚ) (h : s.set_point = none) :
    PID.update s m = (none, s) := by
  obtain ⟨Kp, Ki, Kd, u, l, w, d, spt, le, ig⟩ := s
  obtain rfl : spt = none := h
  rfl

/-- Characterisation of `update` when a set point is present
(`pid.py` lines 47–62): the output is the clamped raw effort, replaced
by `0` inside the deadband, and the state records the new `last_error`
and the clamped integrator. -/
theorem PID.update_some (s : PIDState) (sp m : ℚ) (h : s.set_point = some sp) :
    PID.update s m =
      (some (if |PID.clampedOf s sp m| < s.deadband_width then 0
             else PID.clampedOf s sp m),
       { s with last_error := sp - m,
                integrator := max (-s.windup_limit)
                  (min s.windup_limit (s.integrator + (sp - m))) }) := by
  obtain ⟨Kp, Ki, Kd, u, l, w, d, spt, le, ig⟩ := s
  obtain rfl : spt = some sp := h
  rfl

/-- `runUpdates` from a state without a set point produces only absent
outputs and leaves the state unchanged. -/
theorem runUpdates_no_set_point (s : PIDState) (h : s.set_point = none) :
    ∀ ms : List ℚ, runUpdates s ms = (List.replicate ms.length none, s) := by
  intro ms
  induction ms with
  | nil => rfl
  | cons m ms ih =>
    simp only [runUpdates, PID.update_none s m h, ih, List.replicate]

/-- C5: for every sequence of `update` calls made before any
`set_desired` has ever been received, every call produces an absent
output (`None`), never the number zero and never any other number. -/
theorem pid_silent_before_set_point (Kp Ki Kd u l w d : ℚ) (ms : List ℚ) :
    (runUpdates (PID.init Kp Ki Kd u l w d) ms).1 =
      List.replicate ms.length none := by
  rw [runUpdates_no_set_point (PID.init Kp Ki Kd u l w d) rfl ms]

/-- C4: with a set point present, every `update` turns the integrator
into `clamp(integrator + error, -windup_limit, windup_limit)`
(accumulate fully, then clamp); for `windup_limit ≥ 0` the result is
bounded by `windup_limit` in absolute value, and once the accumulated
value reaches a bound the integrator saturates there. -/
theorem pid_integrator_accumulate_then_clamp (s : PIDState) (m sp : ℚ)
    (h : s.set_point = some sp) :
    ((PID.update s m).2.integrator =
      max (-s.windup_limit) (min s.windup_limit (s.integrator + (sp - m)))) ∧
    (0 ≤ s.windup_limit →
      |(PID.update s m).2.integrator| ≤ s.windup_limit) ∧
    (0 ≤ s.windup_limit → s.windup_limit ≤ s.integrator + (sp - m) →
      (PID.update s m).2.integrator = s.windup_limit) ∧
    (0 ≤ s.windup_limit → s.integrator + (sp - m) ≤ -s.windup_limit →
      (PID.update s m).2.integrator = -s.windup_limit) := by
  rw [PID.update_some s sp m h]
  refine ⟨rfl, fun hw => ?_, fun hw hs => ?_, fun hw hs => ?_⟩
  · exact abs_le.mpr
      ⟨le_max_left _ _, max_le (by linarith) (min_le_left _ _)⟩
  · simp only
    rw [min_eq_left hs, max_eq_right (by linarith)]
  · simp only
    rw [max_eq_left (le_trans (min_le_right _ _) hs)]

/-- Witness for C4: with `windup_limit = 3` and a constant error `5`,
a single `update` saturates the integrator at the limit. -/
theorem pid_integrator_accumulate_then_clamp_witness :
    (PID.update (PID.set_desired (PID.init 1 1 0 10 (-10) 3 0) 5) 0).2.integrator = 3 := by
  have h := pid_integrator_accumulate_then_clamp
    (PID.set_desired (PID.init 1 1 0 10 (-10) 3 0) 5) 0 5 rfl
  have h3 := h.2.2.1 (by norm_num [PID.set_desired, PID.init])
    (by norm_num [PID.set_desired, PID.init])
  simpa [PID.set_desired, PID.init] using h3

/-- C1 counterexample: with `lower_limit = 1 ≤ upper_limit = 2` and
`deadband_width = 5`, `update` returns the numeric output `0`, which
lies outside `[lower_limit, upper_limit]` — the deadband substitution
(`pid.py` lines 59–60) can leave the clamped range. -/
theorem pid_output_outside_limits :
    (PID.init 0 0 0 2 1 1000 5).lower_limit ≤ (PID.init 0 0 0 2 1 1000 5).upper_limit ∧
    (PID.update (PID.set_desired (PID.init 0 0 0 2 1 1000 5) 5) 3).1 = some 0 ∧
    ¬((PID.init 0 0 0 2 1 1000 5).lower_limit ≤ 0 ∧
      (0 : ℚ) ≤ (PID.init 0 0 0 2 1 1000 5).upper_limit) := by
  refine ⟨by norm_num [PID.init], ?_, by norm_num [PID.init]⟩
  norm_num [PID.update, PID.set_desired, PID.init]

/-- C1 (amended): given `lower_limit ≤ upper_limit`, every numeric
output of `update` lies in `[lower_limit, upper_limit]` or is exactly
the deadband value `0`; when additionally `0` itself lies between the
limits, every numeric output lies in `[lower_limit, upper_limit]`. -/
theorem pid_output_clamped_or_deadband_zero (s : PIDState) (m out : ℚ)
    (hlim : s.lower_limit ≤ s.upper_limit)
    (hout : (PID.update s m).1 = some out) :
    ((s.lower_limit ≤ out ∧ out ≤ s.upper_limit) ∨ out = 0) ∧
    (s.lower_limit ≤ 0 → (0 : ℚ) ≤ s.upper_limit →
      s.lower_limit ≤ out ∧ out ≤ s.upper_limit) := by
  have hbounds : s.lower_limit ≤ PID.clampedOf s (Option.getD s.set_point 0) m ∧
      PID.clampedOf s (Option.getD s.set_point 0) m ≤ s.upper_limit := by
    exact ⟨le_min hlim (le_max_left _ _), min_le_left _ _⟩
  cases hsp : s.set_point with
  | none =>
    rw [PID.update_none s m hsp] at hout
    exact absurd hout (by simp)
  | some sp =>
    rw [PID.update_some s sp m hsp] at hout
    rw [hsp] at hbounds
    simp only [Option.getD_some] at hbounds
    simp only [Option.some.injEq] at hout
    by_cases hdb : |PID.clampedOf s sp m| < s.deadband_width
    · rw [if_pos hdb] at hout
      exact ⟨Or.inr hout.symm, fun h0 h1 => hout ▸ ⟨h0, h1⟩⟩
    · rw [if_neg hdb] at hout
      exact ⟨Or.inl (hout ▸ hbounds), fun _ _ => hout ▸ hbounds⟩

/-- Witness for the amended C1: `Kp=1, lower=-1, upper=1`,
`set_desired(5)`, `update(3)` yields `1`, which lies in `[-1, 1]`. -/
theorem pid_output_clamped_or_deadband_zero_witness :
    (((PID.set_desired (PID.init 1 0 0 1 (-1) 1000 0) 5).lower_limit ≤ 1 ∧
      (1 : ℚ) ≤ (PID.set_desired (PID.init 1 0 0 1 (-1) 1000 0) 5).upper_limit) ∨
     (1 : ℚ) = 0) := by
  exact (pid_output_clamped_or_deadband_zero
    (PID.set_desired (PID.init 1 0 0 1 (-1) 1000 0) 5) 3 1
    (by norm_num [PID.set_desired, PID.init])
    (by norm_num [PID.update, PID.set_desired, PID.init])).1

/-- C3 counterexample: the constructor accepts `lower_limit = 5 >
upper_limit = 1`, `windup_limit = -2 < 0` and `deadband_width = -3 < 0`
without any error — the parameters are stored verbatim and the
controller then computes outputs normally; nothing in `PID.__init__`
(`pid.py` lines 29–41) validates the configuration. -/
theorem pid_invalid_config_accepted :
    PID.init 0 0 0 1 5 (-2) (-3) =
      { Kp := 0, Ki := 0, Kd := 0, upper_limit := 1, lower_limit := 5,
        windup_limit := -2, deadband_width := -3, set_point := none,
        last_error := 0, integrator := 0 } ∧
    (PID.init 0 0 0 1 5 (-2) (-3)).upper_limit <
      (PID.init 0 0 0 1 5 (-2) (-3)).lower_limit ∧
    (PID.update (PID.set_desired (PID.init 0 0 0 1 5 (-2) (-3)) 0) 0).1 = some 1 := by
  refine ⟨rfl, by norm_num [PID.init], ?_⟩
  norm_num [PID.update, PID.set_desired, PID.init]

/-- C3 (amended): construction never fails and never rejects a
configuration: for every parameter combination — including
`lower_limit > upper_limit`, `windup_limit < 0` or
`deadband_width < 0` — the parameters are silently stored verbatim, and
once a set point arrives every `update` yields a numeric output. -/
theorem pid_init_accepts_all_configs (Kp Ki Kd u l w d : ℚ) :
    (PID.init Kp Ki Kd u l w d).Kp = Kp ∧
    (PID.init Kp Ki Kd u l w d).Ki = Ki ∧
    (PID.init Kp Ki Kd u l w d).Kd = Kd ∧
    (PID.init Kp Ki Kd u l w d).upper_limit = u ∧
    (PID.init Kp Ki Kd u l w d).lower_limit = l ∧
    (PID.init Kp Ki Kd u l w d).windup_limit = w ∧
    (PID.init Kp Ki Kd u l w d).deadband_width = d ∧
    (PID.init Kp Ki Kd u l w d).set_point = none ∧
    (∀ sp m : ℚ,
      ((PID.update (PID.set_desired (PID.init Kp Ki Kd u l w d) sp) m).1).isSome = true) := by
  refine ⟨rfl, rfl, rfl, rfl, rfl, rfl, rfl, rfl, fun sp m => ?_⟩
  rw [PID.update_some (PID.set_desired (PID.init Kp Ki Kd u l w d) sp) sp m rfl]
  simp

/-- C6: with a set point present, whenever the clamped effort falls
inside the deadband (`pid.py` lines 59–60) the output is exactly the
present value `0` — observably distinct from the absent output of the
no-set-point state — and there is a concrete input with nonzero raw
effort whose observable output is exactly `0`. -/
theorem pid_deadband_publishes_zero :
    (∀ (s : PIDState) (m sp : ℚ), s.set_point = some sp →
      |PID.clampedOf s sp m| < s.deadband_width →
      (PID.update s m).1 = some 0 ∧
      (PID.update s m).1 ≠ (PID.update { s with set_point := none } m).1) ∧
    (PID.rawOf (PID.set_desired (PID.init 1 0 0 10 (-10) 1000 5) 2) 2 0 ≠ 0 ∧
     (PID.update (PID.set_desired (PID.init 1 0 0 10 (-10) 1000 5) 2) 0).1 = some 0) := by
  constructor
  · intro s m sp hsp hdb
    rw [PID.update_some s sp m hsp,
      PID.update_none { s with set_point := none } m rfl]
    simp [hdb]
  · constructor
    · norm_num [PID.rawOf, PID.set_desired, PID.init]
    · norm_num [PID.update, PID.set_desired, PID.init]

/-- Witness for C6: a state with set point `2`, `Kp = 1`,
`deadband_width = 5`, measured value `0`: the clamped effort is `2`,
inside the deadband, and the output is the present value `0`. -/
theorem pid_deadband_publishes_zero_witness :
    (PID.update (PID.set_desired (PID.init 1 0 0 10 (-10) 1000 5) 2) 0).1 = some 0 := by
  exact (pid_deadband_publishes_zero.1
    (PID.set_desired (PID.init 1 0 0 10 (-10) 1000 5) 2) 0 2 rfl
    (by norm_num [PID.clampedOf, PID.rawOf, PID.set_desired, PID.init])).1

/-- C9: `set_desired` mutates only `set_point` — every other field, in
particular `last_error` and `integrator`, is unchanged — and the
carried-over derivative/integral state is observable: a controller that
reaches the new set point with accumulated state commands differently
from a fresh controller given the same set point and measurement. -/
theorem pid_set_desired_mutates_only_set_point :
    (∀ (s : PIDState) (v : ℚ),
      (PID.set_desired s v).set_point = some v ∧
      (PID.set_desired s v).last_error = s.last_error ∧
      (PID.set_desired s v).integrator = s.integrator ∧
      (PID.set_desired s v).Kp = s.Kp ∧
      (PID.set_desired s v).Ki = s.Ki ∧
      (PID.set_desired s v).Kd = s.Kd ∧
      (PID.set_desired s v).upper_limit = s.upper_limit ∧
      (PID.set_desired s v).lower_limit = s.lower_limit ∧
      (PID.set_desired s v).windup_limit = s.windup_limit ∧
      (PID.set_desired s v).deadband_width = s.deadband_width) ∧
    ((PID.update (PID.set_desired
        ((PID.update (PID.set_desired (PID.init 0 1 2 100 (-100) 1000 0) 5) 3).2) 0) 1).1 ≠
     (PID.update (PID.set_desired (PID.init 0 1 2 100 (-100) 1000 0) 0) 1).1) := by
  constructor
  · intro s v
    exact ⟨rfl, rfl, rfl, rfl, rfl, rfl, rfl, rfl, rfl, rfl⟩
  · norm_num [PID.update, PID.set_desired, PID.init]

/-- A frame arriving within `min_update_interval` of the last accepted
frame is dropped silently (`image_persistence.py` lines 43–45): no
state change, no store write, no error. -/
theorem ImagePersistence.on_image_drop (st : SinkState) (store : Store)
    (t ts : ℚ) (item : ImageMsg) (encode : String → ℕ → ℕ → List ℕ → List ℕ)
    (putOk : Bool) (h : t - st.last_update < st.min_update_interval) :
    ImagePersistence.on_image st store t ts item encode putOk =
      (st, store, [], none) := by
  simp [ImagePersistence.on_image, h]

/-- Once the gate passes, `last_update` is set to the arrival time
(`image_persistence.py` line 46) no matter what happens afterwards,
and `min_update_interval` is untouched. -/
theorem ImagePersistence.on_image_pass_state (st : SinkState) (store : Store)
    (t ts : ℚ) (item : ImageMsg) (encode : String → ℕ → ℕ → List ℕ → List ℕ)
    (putOk : Bool) (h : ¬(t - st.last_update < st.min_update_interval)) :
    (ImagePersistence.on_image st store t ts item encode putOk).1 =
      { st with last_update := t } := by
  unfold ImagePersistence.on_image
  rw [if_neg h]
  cases hf : ImagePersistence.imageFormatMapping item.encoding with
  | none => rfl
  | some fmt => cases putOk <;> rfl

/-- An eligible frame with a supported encoding and a successful
attachment `PUT` (`image_persistence.py` lines 46–77): the record and
then the attachment are written. -/
theorem ImagePersistence.on_image_persist (st : SinkState) (store : Store)
    (t ts : ℚ) (item : ImageMsg) (encode : String → ℕ → ℕ → List ℕ → List ℕ)
    (fmt : String) (h : ¬(t - st.last_update < st.min_update_interval))
    (hf : ImagePersistence.imageFormatMapping item.encoding = some fmt) :
    ImagePersistence.on_image st store t ts item encode true =
      ({ st with last_update := t },
       { records := store.records ++
           [(store.records.length,
             { environment := st.environment, varName := st.varName,
               is_desired := false, value := none, timestamp := ts })],
         attachments := store.attachments ++
           [(store.records.length, 1, encode fmt item.width item.height item.data)] },
       [Effect.saveRecord
          { environment := st.environment, varName := st.varName,
            is_desired := false, value := none, timestamp := ts },
        Effect.putAttachment (store.records.length) 1
          (encode fmt item.width item.height item.data)],
       none) := by
  unfold ImagePersistence.on_image
  rw [if_neg h, hf]
  rfl

/-- An eligible frame with a supported encoding whose attachment `PUT`
fails (`image_persistence.py` lines 73–77): the record stays persisted,
the attachment is absent, and a `RuntimeError` is raised. -/
theorem ImagePersistence.on_image_put_fails (st : SinkState) (store : Store)
    (t ts : ℚ) (item : ImageMsg) (encode : String → ℕ → ℕ → List ℕ → List ℕ)
    (fmt : String) (h : ¬(t - st.last_update < st.min_update_interval))
    (hf : ImagePersistence.imageFormatMapping item.encoding = some fmt) :
    ImagePersistence.on_image st store t ts item encode false =
      ({ st with last_update := t },
       { records := store.records ++
           [(store.records.length,
             { environment := st.environment, varName := st.varName,
               is_desired := false, value := none, timestamp := ts })],
         attachments := store.attachments },
       [Effect.saveRecord
          { environment := st.environment, varName := st.varName,
            is_desired := false, value := none, timestamp := ts },
        Effect.putAttachment (store.records.length) 1
          (encode fmt item.width item.height item.data)],
       some SinkError.attachmentFailed) := by
  unfold ImagePersistence.on_image
  rw [if_neg h, hf]
  rfl

/-- C7: a gate check fires (and sets `last_update` to the arrival time)
iff `now - last_update ≥ min_update_interval`, and the false path
mutates nothing; concretely, after an accepted fire at `t0` with
interval `T`, a check at `t0 + T - ε` (for `ε > 0`) fails and leaves
`last_update` at `t0`, while a check at `t0 + T` succeeds. -/
theorem sink_rate_gate :
    (∀ (st : SinkState) (store : Store) (t ts : ℚ) (item : ImageMsg)
        (encode : String → ℕ → ℕ → List ℕ → List ℕ) (putOk : Bool),
      t - st.last_update < st.min_update_interval →
      ImagePersistence.on_image st store t ts item encode putOk =
        (st, store, [], none)) ∧
    (∀ (st : SinkState) (store : Store) (t ts : ℚ) (item : ImageMsg)
        (encode : String → ℕ → ℕ → List ℕ → List ℕ) (putOk : Bool),
      st.min_update_interval ≤ t - st.last_update →
      (ImagePersistence.on_image st store t ts item encode putOk).1 =
        { st with last_update := t }) ∧
    (∀ (env vn : String) (store store' : Store) (T ε t0 ts ts' : ℚ)
        (item : ImageMsg) (encode : String → ℕ → ℕ → List ℕ → List ℕ)
        (putOk : Bool), 0 < ε →
      (ImagePersistence.on_image ⟨env, vn, T, t0⟩ store (t0 + T - ε) ts item
          encode putOk = (⟨env, vn, T, t0⟩, store, [], none)) ∧
      ((ImagePersistence.on_image ⟨env, vn, T, t0⟩ store' (t0 + T) ts' item
          encode putOk).1.last_update = t0 + T)) := by
  refine ⟨fun st store t ts item encode putOk h =>
      ImagePersistence.on_image_drop st store t ts item encode putOk h,
    fun st store t ts item encode putOk h =>
      ImagePersistence.on_image_pass_state st store t ts item encode putOk
        (not_lt.mpr h),
    fun env vn store store' T ε t0 ts ts' item encode putOk hε => ⟨?_, ?_⟩⟩
  · exact ImagePersistence.on_image_drop _ store _ ts item encode putOk
      (by simp only; linarith)
  · rw [ImagePersistence.on_image_pass_state _ store' _ ts' item encode putOk
      (by simp only; linarith)]

/-- Witness for C7: with `T = 10`, a fire accepted at `t0 = 0`, a check
at `t = 9` is dropped with no mutation. -/
theorem sink_rate_gate_witness :
    ImagePersistence.on_image ⟨"e", "v", 10, 0⟩ ⟨[], []⟩ (0 + 10 - 1) 9
        ⟨"rgb8", 2, 2, [0, 1, 2, 3]⟩ (fun _ _ _ d => d) true =
      (⟨"e", "v", 10, 0⟩, ⟨[], []⟩, [], none) := by
  exact (sink_rate_gate.2.2 "e" "v" ⟨[], []⟩ ⟨[], []⟩ 10 1 0 9 9
    ⟨"rgb8", 2, 2, [0, 1, 2, 3]⟩ (fun _ _ _ d => d) true (by norm_num)).1

/-- C10: once the gate passes at time `t`, `last_update` is advanced to
`t` before the encoding check and the store writes — for every
encoding and every attachment outcome — so every frame arriving before
`t + min_update_interval` is dropped, even when the gate-passing frame
itself persisted nothing. -/
theorem sink_gate_advances_before_persisting (st : SinkState) (store : Store)
    (t ts : ℚ) (item : ImageMsg) (encode : String → ℕ → ℕ → List ℕ → List ℕ)
    (putOk : Bool) (h : st.min_update_interval ≤ t - st.last_update) :
    ((ImagePersistence.on_image st store t ts item encode putOk).1 =
      { st with last_update := t }) ∧
    (∀ (store₂ : Store) (u us : ℚ) (item₂ : ImageMsg)
        (encode₂ : String → ℕ → ℕ → List ℕ → List ℕ) (putOk₂ : Bool),
      u - t < st.min_update_interval →
      ImagePersistence.on_image
          (ImagePersistence.on_image st store t ts item encode putOk).1
          store₂ u us item₂ encode₂ putOk₂ =
        ((ImagePersistence.on_image st store t ts item encode putOk).1,
          store₂, [], none)) := by
  have h1 := ImagePersistence.on_image_pass_state st store t ts item encode putOk
    (not_lt.mpr h)
  refine ⟨h1, fun store₂ u us item₂ encode₂ putOk₂ h2 => ?_⟩
  rw [h1]
  exact ImagePersistence.on_image_drop _ store₂ u us item₂ encode₂ putOk₂ h2

/-- Witness for C10: a fresh sink with interval `10`; a frame with an
unsupported encoding passes the gate at `t = 20`, and the next frame at
`t = 25` is dropped even though nothing was persisted at `t = 20`. -/
theorem sink_gate_advances_before_persisting_witness :
    ImagePersistence.on_image
        (ImagePersistence.on_image (ImagePersistence.init "e" "v" 10) ⟨[], []⟩
          20 20 ⟨"bgr8", 2, 2, [0, 1, 2, 3]⟩ (fun _ _ _ d => d) true).1
        ⟨[], []⟩ 25 25 ⟨"rgb8", 2, 2, [0, 1, 2, 3]⟩ (fun _ _ _ d => d) true =
      ((ImagePersistence.on_image (ImagePersistence.init "e" "v" 10) ⟨[], []⟩
          20 20 ⟨"bgr8", 2, 2, [0, 1, 2, 3]⟩ (fun _ _ _ d => d) true).1,
        ⟨[], []⟩, [], none) := by
  exact (sink_gate_advances_before_persisting
    (ImagePersistence.init "e" "v" 10) ⟨[], []⟩ 20 20
    ⟨"bgr8", 2, 2, [0, 1, 2, 3]⟩ (fun _ _ _ d => d) true
    (by norm_num [ImagePersistence.init])).2
    ⟨[], []⟩ 25 25 ⟨"rgb8", 2, 2, [0, 1, 2, 3]⟩ (fun _ _ _ d => d) true
    (by norm_num [ImagePersistence.init])

/-- C8: for an eligible frame with a supported encoding, `on_image`
first saves a record with `value` absent and `is_desired = false`, then
puts the encoded bytes as an attachment keyed to the id and revision
returned by the save; if the attachment `PUT` fails after the save, a
`RuntimeError` is reported and the record stays in the store (orphan) —
the save is not rolled back. -/
theorem sink_two_phase_write (st : SinkState) (store : Store) (t ts : ℚ)
    (item : ImageMsg) (encode : String → ℕ → ℕ → List ℕ → List ℕ)
    (fmt : String) (hgate : st.min_update_interval ≤ t - st.last_update)
    (hfmt : ImagePersistence.imageFormatMapping item.encoding = some fmt) :
    (∀ putOk : Bool,
      (ImagePersistence.on_image st store t ts item encode putOk).2.2.1 =
        [Effect.saveRecord ⟨st.environment, st.varName, false, none, ts⟩,
         Effect.putAttachment store.records.length 1
           (encode fmt item.width item.height item.data)]) ∧
    ((ImagePersistence.on_image st store t ts item encode true).2.1 =
      ⟨store.records ++
         [(store.records.length, ⟨st.environment, st.varName, false, none, ts⟩)],
       store.attachments ++
         [(store.records.length, 1, encode fmt item.width item.height item.data)]⟩) ∧
    ((ImagePersistence.on_image st store t ts item encode true).2.2.2 = none) ∧
    ((ImagePersistence.on_image st store t ts item encode false).2.2.2 =
      some SinkError.attachmentFailed) ∧
    ((ImagePersistence.on_image st store t ts item encode false).2.1 =
      ⟨store.records ++
         [(store.records.length, ⟨st.environment, st.varName, false, none, ts⟩)],
       store.attachments⟩) := by
  have hp := ImagePersistence.on_image_persist st store t ts item encode fmt
    (not_lt.mpr hgate) hfmt
  have hq := ImagePersistence.on_image_put_fails st store t ts item encode fmt
    (not_lt.mpr hgate) hfmt
  refine ⟨fun putOk => ?_, by rw [hp], by rw [hp], by rw [hq], by rw [hq]⟩
  cases putOk
  · rw [hq]
  · rw [hp]

/-- Witness for C8: a fresh store, an eligible `rgb8` frame, and a
failing attachment `PUT`: the record is persisted alone and the error
is reported. -/
theorem sink_two_phase_write_witness :
    (ImagePersistence.on_image (ImagePersistence.init "e" "v" 10) ⟨[], []⟩
        10 10 ⟨"rgb8", 2, 2, [0, 1, 2, 3]⟩ (fun _ _ _ d => d) false).2.2.2 =
      some SinkError.attachmentFailed ∧
    (ImagePersistence.on_image (ImagePersistence.init "e" "v" 10) ⟨[], []⟩
        10 10 ⟨"rgb8", 2, 2, [0, 1, 2, 3]⟩ (fun _ _ _ d => d) false).2.1 =
      ⟨[(0, ⟨"e", "v", false, none, 10⟩)], []⟩ := by
  have h := sink_two_phase_write (ImagePersistence.init "e" "v" 10) ⟨[], []⟩
    10 10 ⟨"rgb8", 2, 2, [0, 1, 2, 3]⟩ (fun _ _ _ d => d) "RGB"
    (by norm_num [ImagePersistence.init]) rfl
  exact ⟨h.2.2.2.1, h.2.2.2.2⟩

/-- C2 counterexample: a fresh image sink has `last_update = 0`
(`image_persistence.py` line 38), so its very first gate check is not
always eligible: with `min_update_interval = 10`, a first frame at
`t = 0` is dropped (`0 - 0 < 10`), and of the frames at
`t = 0, 4, 9, 11` only the one at `t = 11` is persisted — not the
two the claim names. -/
theorem sink_first_frame_at_zero_dropped :
    (ImagePersistence.on_image (ImagePersistence.init "env" "aerial_image" 10)
        ⟨[], []⟩ 0 0 ⟨"rgb8", 2, 2, [0, 1, 2, 3]⟩ (fun _ _ _ d => d) true =
      (ImagePersistence.init "env" "aerial_image" 10, ⟨[], []⟩, [], none)) ∧
    ((runFrames (fun _ _ _ d => d) (ImagePersistence.init "env" "aerial_image" 10)
        ⟨[], []⟩
        [(0, ⟨"rgb8", 2, 2, [0, 1, 2, 3]⟩), (4, ⟨"rgb8", 2, 2, [0, 1, 2, 3]⟩),
         (9, ⟨"rgb8", 2, 2, [0, 1, 2, 3]⟩),
         (11, ⟨"rgb8", 2, 2, [0, 1, 2, 3]⟩)]).2.records.map
        (fun r => r.2.timestamp) = [11]) := by
  constructor
  · exact ImagePersistence.on_image_drop _ _ 0 0 _ _ true
      (by norm_num [ImagePersistence.init])
  · norm_num [runFrames, ImagePersistence.on_image, ImagePersistence.init,
      ImagePersistence.imageFormatMapping, Store.save]

/-- C2 (amended): the gate is initialised with `last_update = 0`, so the
first check of a fresh sink is eligible exactly when the arrival time
has reached `min_update_interval` (for wall-clock arrival times this is
effectively always); consequently, with `min_update_interval = 10` and
frames at `t0, t0 + 4, t0 + 9, t0 + 11` for any start `t0 ≥ 10`,
exactly the frames at `t0` and `t0 + 11` are persisted. -/
theorem sink_gate_eligibility_from_start :
    (∀ (env vn : String) (minT : ℚ) (store : Store) (t ts : ℚ)
        (item : ImageMsg) (encode : String → ℕ → ℕ → List ℕ → List ℕ)
        (putOk : Bool),
      (t < minT →
        ImagePersistence.on_image (ImagePersistence.init env vn minT) store
            t ts item encode putOk =
          (ImagePersistence.init env vn minT, store, [], none)) ∧
      (minT ≤ t →
        (ImagePersistence.on_image (ImagePersistence.init env vn minT) store
            t ts item encode putOk).1.last_update = t)) ∧
    (∀ (env vn : String) (t0 : ℚ)
        (encode : String → ℕ → ℕ → List ℕ → List ℕ), 10 ≤ t0 →
      (runFrames encode (ImagePersistence.init env vn 10) ⟨[], []⟩
          [(t0, ⟨"rgb8", 2, 2, [0, 1, 2, 3]⟩),
           (t0 + 4, ⟨"rgb8", 2, 2, [0, 1, 2, 3]⟩),
           (t0 + 9, ⟨"rgb8", 2, 2, [0, 1, 2, 3]⟩),
           (t0 + 11, ⟨"rgb8", 2, 2, [0, 1, 2, 3]⟩)]).2.records.map
        (fun r => r.2.timestamp) = [t0, t0 + 11]) := by
  constructor
  · intro env vn minT store t ts item encode putOk
    constructor
    · intro ht
      exact ImagePersistence.on_image_drop _ store t ts item encode putOk
        (by simp only [ImagePersistence.init]; linarith)
    · intro ht
      rw [ImagePersistence.on_image_pass_state _ store t ts item encode putOk
        (by simp only [ImagePersistence.init]; push_neg; linarith)]
  · intro env vn t0 encode h10
    have e1 := ImagePersistence.on_image_persist
      (ImagePersistence.init env vn 10) ⟨[], []⟩ t0 t0
      ⟨"rgb8", 2, 2, [0, 1, 2, 3]⟩ encode "RGB"
      (by simp only [ImagePersistence.init]; push_neg; linarith) rfl
    simp only [runFrames]
    rw [e1]
    simp only
    rw [ImagePersistence.on_image_drop _ _ (t0 + 4) (t0 + 4) _ encode true
      (by simp only [ImagePersistence.init]; linarith)]
    simp only
    rw [ImagePersistence.on_image_drop _ _ (t0 + 9) (t0 + 9) _ encode true
      (by simp only [ImagePersistence.init]; linarith)]
    simp only
    rw [ImagePersistence.on_image_persist _ _ (t0 + 11) (t0 + 11)
      ⟨"rgb8", 2, 2, [0, 1, 2, 3]⟩ encode "RGB"
      (by simp only [ImagePersistence.init]; push_neg; linarith) rfl]
    simp

/-- Witness for the amended C2: with `t0 = 10`, the four-frame scenario
persists exactly the records stamped `10` and `21`. -/
theorem sink_gate_eligibility_from_start_witness :
    (runFrames (fun _ _ _ d => d) (ImagePersistence.init "e" "v" 10) ⟨[], []⟩
        [((10 : ℚ), ⟨"rgb8", 2, 2, [0, 1, 2, 3]⟩),
         ((10 : ℚ) + 4, ⟨"rgb8", 2, 2, [0, 1, 2, 3]⟩),
         ((10 : ℚ) + 9, ⟨"rgb8", 2, 2, [0, 1, 2, 3]⟩),
         ((10 : ℚ) + 11, ⟨"rgb8", 2, 2, [0, 1, 2, 3]⟩)]).2.records.map
      (fun r => r.2.timestamp) = [10, (10 : ℚ) + 11] := by
  exact sink_gate_eligibility_from_start.2 "e" "v" 10 (fun _ _ _ d => d)
    (by norm_num)
